import Mathlib

/-!
Verification model of the OCPP virtual charge point protocol engine
(ocpp-virtual-charge-point): the message codec, correlation table,
connection lifecycle, action registry, and selected message handlers.
-/

namespace OcppVCP

/-- JSON-like payload values carried in OCPP frames. -/
inductive Json where
  | null : Json
  | bool (b : Bool) : Json
  | num (n : Int) : Json
  | str (s : String) : Json
  | arr (elems : List Json) : Json
  | obj (fields : List (String × Json)) : Json

/-- The three OCPP frame kinds.  From the spec data model: tagged union
`Call(id, action, payload)`, `CallResult(id, payload)`,
`CallError(id, errorCode, errorDescription, errorDetails)`. -/
inductive Frame where
  | call (id action : String) (payload : Json) : Frame
  | callResult (id : String) (payload : Json) : Frame
  | callError (id errorCode errorDescription : String) (errorDetails : Json) : Frame

/-- Decoding failure for a malformed wire sequence. -/
inductive DecodeError where
  | badShape : DecodeError
deriving DecidableEq

namespace Codec

/-- Modelled from the spec: the Message Codec's `encode` (the codec source is
not in the extract; §4.2 fixes the wire forms `[2, id, action, payload]`,
`[3, id, payload]`, `[4, id, errorCode, errorDescription, errorDetails]`). -/
def encode : Frame → List Json
  | Frame.call id action payload => [Json.num 2, Json.str id, Json.str action, payload]
  | Frame.callResult id payload => [Json.num 3, Json.str id, payload]
  | Frame.callError id c d details =>
      [Json.num 4, Json.str id, Json.str c, Json.str d, details]

/-- Modelled from the spec: the Message Codec's `decode`; any sequence whose
tag or arity matches none of the three shapes yields a DecodeError. -/
def decode : List Json → Except DecodeError Frame
  | [Json.num 2, Json.str id, Json.str action, payload] =>
      Except.ok (Frame.call id action payload)
  | [Json.num 3, Json.str id, payload] =>
      Except.ok (Frame.callResult id payload)
  | [Json.num 4, Json.str id, Json.str c, Json.str d, details] =>
      Except.ok (Frame.callError id c d details)
  | _ => Except.error DecodeError.badShape

/-- Whether the leading tag and the arity of a wire sequence match one of the
three frame shapes of §4.2. -/
def tagArityMatches : List Json → Bool
  | Json.num 2 :: rest => rest.length == 3
  | Json.num 3 :: rest => rest.length == 2
  | Json.num 4 :: rest => rest.length == 4
  | _ => false

end Codec

/-- Sample message id for concrete instantiations. -/
def sampleId : String := "1"

/-- Sample action name for concrete instantiations. -/
def sampleAction : String := "Heartbeat"

namespace Codec

theorem decode_badShape (ws : List Json) (h : tagArityMatches ws = false) :
    decode ws = Except.error DecodeError.badShape := by
  unfold decode
  split
  · simp [tagArityMatches] at h
  · simp [tagArityMatches] at h
  · simp [tagArityMatches] at h
  · rfl

theorem encode_length_bounds (f : Frame) :
    3 ≤ (encode f).length ∧ (encode f).length ≤ 5 := by
  cases f <;> simp [encode]

/-- Claim C6 (counterexample): the wire form of a Call frame is a 4-element
sequence, so "the wire form of every frame is a 3-or-5 element ordered
sequence" fails at the concrete frame `Call(1, Heartbeat, null)`. -/
theorem call_wire_not_three_or_five :
    (encode (Frame.call sampleId sampleAction Json.null)).length = 4 ∧
    ¬ ((encode (Frame.call sampleId sampleAction Json.null)).length = 3 ∨
       (encode (Frame.call sampleId sampleAction Json.null)).length = 5) := by
  exact ⟨rfl, by decide⟩

/-- Claim C6 (amended): decode is total over wire sequences and returns a Call
for `[2, id, action, payload]`, a CallResult for `[3, id, payload]`, a
CallError for `[4, id, errorCode, errorDescription, errorDetails]`; every
sequence whose leading tag or arity matches none of the three shapes yields a
DecodeError and never a partially-populated Frame; and the wire form of every
frame is a 3-, 4-, or 5-element ordered sequence (3 for CallResult, 4 for
Call, 5 for CallError). -/
theorem decode_total_and_wire_shapes :
    (∀ id action payload,
      decode [Json.num 2, Json.str id, Json.str action, payload] =
        Except.ok (Frame.call id action payload)) ∧
    (∀ id payload,
      decode [Json.num 3, Json.str id, payload] =
        Except.ok (Frame.callResult id payload)) ∧
    (∀ id c d details,
      decode [Json.num 4, Json.str id, Json.str c, Json.str d, details] =
        Except.ok (Frame.callError id c d details)) ∧
    (∀ ws, tagArityMatches ws = false →
      decode ws = Except.error DecodeError.badShape) ∧
    (∀ f, 3 ≤ (encode f).length ∧ (encode f).length ≤ 5) :=
  ⟨fun _ _ _ => rfl, fun _ _ => rfl, fun _ _ _ _ => rfl,
   decode_badShape, encode_length_bounds⟩

/-- Claim C6 (witness): the amended theorem applied at concrete inputs: a
mismatched tag decodes to an error, a CallResult shape decodes to the frame. -/
theorem decode_total_and_wire_shapes_witness :
    decode [Json.num 5, Json.str sampleId] = Except.error DecodeError.badShape ∧
    decode [Json.num 3, Json.str sampleId, Json.null] =
      Except.ok (Frame.callResult sampleId Json.null) :=
  ⟨decode_total_and_wire_shapes.2.2.2.1 [Json.num 5, Json.str sampleId] rfl,
   decode_total_and_wire_shapes.2.1 sampleId Json.null⟩

end Codec

namespace Engine

/-- Modelled from the spec: the outcome with which a PendingCall settles
(§4.3, §7): validated response, protocol-level CallError, response-payload
validation failure, timeout expiry, or connection teardown. -/
inductive Outcome where
  | success (payload : Json) : Outcome
  | protocolError (code description : String) : Outcome
  | validationFailed : Outcome
  | timeout : Outcome
  | disconnected : Outcome

/-- Modelled from the spec: an outgoing MessageDefinition (§3): action name
plus request/response schema validators; a validator returns the normalized
payload on success and `none` on a ValidationError (§4.1). -/
structure OcppMessageDef where
  action : String
  reqSchema : Json → Option Json
  resSchema : Json → Option Json

/-- Modelled from the spec: a PendingCall (§3): the originating definition and
the deadline of its fixed timeout. -/
structure PendingCall where
  msgDef : OcppMessageDef
  deadline : Nat

/-- Modelled from the spec: the Connection Manager state machine states
(§4.5): `Idle → Connecting → Open → Closing → Closed`. -/
inductive ConnStatus where
  | idle : ConnStatus
  | connecting : ConnStatus
  | opened : ConnStatus
  | closing : ConnStatus
  | closed : ConnStatus
deriving DecidableEq

/-- Modelled from the spec: a Connection (§3): lifecycle status, the live
PendingCall set keyed by message id (the Correlation Table), the log of
`onSettle` invocations (each entry is one completion-callback firing), and the
monotonically increasing id generator. -/
structure ConnState where
  status : ConnStatus
  pending : List (String × PendingCall)
  settledLog : List (String × Outcome)
  nextId : Nat

/-- Modelled from the spec: internal correlation violations (§4.3, §7). -/
inductive CorrError where
  | duplicateId : CorrError
  | unknownId : CorrError
deriving DecidableEq

/-- Look up the live PendingCall for an id in the Correlation Table. -/
def lookupPending (id : String) : List (String × PendingCall) → Option PendingCall
  | [] => none
  | e :: rest => if e.1 = id then some e.2 else lookupPending id rest

/-- Remove every entry for an id from the Correlation Table. -/
def removeId (id : String) (l : List (String × PendingCall)) :
    List (String × PendingCall) :=
  l.filter (fun e => decide (e.1 ≠ id))

/-- Modelled from the spec: Correlation Table `register` (§4.3): fails with
DuplicateId if the id already has a live entry, leaving the table unchanged;
otherwise records the entry. -/
def register (id : String) (pc : PendingCall) (st : ConnState) :
    Except CorrError ConnState :=
  match lookupPending id st.pending with
  | some _ => Except.error CorrError.duplicateId
  | none => Except.ok { st with pending := (id, pc) :: st.pending }

/-- Modelled from the spec: Correlation Table `settle` (§4.3): looks up and
removes the entry and invokes `onSettle` exactly once with the outcome
(recorded in the settled log); fails with UnknownId, changing nothing, if no
live entry exists. -/
def settle (id : String) (o : Outcome) (st : ConnState) :
    Except CorrError ConnState :=
  match lookupPending id st.pending with
  | none => Except.error CorrError.unknownId
  | some _ =>
      Except.ok { st with pending := removeId id st.pending,
                          settledLog := st.settledLog ++ [(id, o)] }

/-- Modelled from the spec: Correlation Table `expire` (§4.3): settles every
entry whose deadline has passed with a Timeout outcome. -/
def expire (now : Nat) (st : ConnState) : ConnState :=
  { st with
    pending := st.pending.filter (fun e => decide (¬ e.2.deadline < now)),
    settledLog := st.settledLog ++
      (st.pending.filter (fun e => decide (e.2.deadline < now))).map
        (fun e => (e.1, Outcome.timeout)) }

/-- Modelled from the spec: Connection `close` (§4.5, §7): on explicit close
or transport-level disconnect from any non-Closed state, every live
PendingCall settles with a Disconnected outcome and the status becomes
Closed; on an already-Closed connection it is a no-op. -/
def close (st : ConnState) : ConnState :=
  if st.status = ConnStatus.closed then st
  else
    { st with
      status := ConnStatus.closed
      pending := []
      settledLog := st.settledLog ++
        st.pending.map (fun e => (e.1, Outcome.disconnected)) }

/-- Modelled from the spec: `connect()` (§4.5): Idle to Connecting. -/
def connect (st : ConnState) : ConnState :=
  if st.status = ConnStatus.idle then { st with status := ConnStatus.connecting }
  else st

/-- Modelled from the spec: transport-level connect success (§4.5):
Connecting to Open. -/
def transportOpened (st : ConnState) : ConnState :=
  if st.status = ConnStatus.connecting then { st with status := ConnStatus.opened }
  else st

/-- Modelled from the spec: transport-level connect failure (§4.5):
Connecting to Closed, reported to the caller, not retried. -/
def transportFailed (st : ConnState) : ConnState :=
  if st.status = ConnStatus.connecting then { st with status := ConnStatus.closed }
  else st

/-- Modelled from the spec: the receive loop's handling of a CallResult frame
(§2, §4.5): the Correlation Table resolves the matching pending entry,
validating the response payload first; an unknown id is logged and dropped. -/
def handleResultFrame (id : String) (payload : Json) (st : ConnState) : ConnState :=
  match lookupPending id st.pending with
  | none => st
  | some pc =>
      let o := match pc.msgDef.resSchema payload with
        | some r => Outcome.success r
        | none => Outcome.validationFailed
      match settle id o st with
      | Except.ok st1 => st1
      | Except.error _ => st

/-- Modelled from the spec: the receive loop's handling of a CallError frame
(§4.5, §7): the matching pending entry settles with a protocol-level error
carrying the remote code and description. -/
def handleErrorFrame (id code description : String) (st : ConnState) : ConnState :=
  match settle id (Outcome.protocolError code description) st with
  | Except.ok st1 => st1
  | Except.error _ => st

/-- Failure kinds of the outbound send path (§4.5, §7). -/
inductive SendError where
  | notOpen : SendError
  | validationFailed : SendError
  | duplicateId : SendError
deriving DecidableEq

/-- Modelled from the spec: the fresh message id drawn from the monotonically
increasing generator (§3). -/
def freshId (st : ConnState) : String := toString st.nextId

/-- Modelled from the spec: `send(outgoingDefinition, payload)` (§4.5): valid
only in Open; validates the payload, generates a fresh id, registers a
PendingCall with a fixed timeout, and emits the Call frame. -/
def sendCall (d : OcppMessageDef) (p : Json) (now timeoutMs : Nat)
    (st : ConnState) : Except SendError (ConnState × String × Frame) :=
  if st.status = ConnStatus.opened then
    match d.reqSchema p with
    | none => Except.error SendError.validationFailed
    | some p1 =>
        match register (freshId st) { msgDef := d, deadline := now + timeoutMs } st with
        | Except.error _ => Except.error SendError.duplicateId
        | Except.ok st1 =>
            Except.ok ({ st1 with nextId := st.nextId + 1 },
              freshId st, Frame.call (freshId st) d.action p1)
  else Except.error SendError.notOpen

/-- CallError code sent for an inbound Call whose action is not registered
(§4.4). -/
def notImplementedCode : String := "NotImplemented"

/-- CallError description sent for an unregistered inbound action. -/
def notImplementedDescription : String := "Requested action is not implemented"

/-- CallError code for an inbound Call whose payload fails validation (§7). -/
def formationViolationCode : String := "FormationViolation"

/-- CallError description for an inbound payload failing validation. -/
def formationViolationDescription : String := "Payload is syntactically incorrect"

/-- Modelled from the spec: the two incompatible protocol generations behind
one call surface (§1, §3). -/
inductive OcppVersion where
  | ocpp16 : OcppVersion
  | ocpp21 : OcppVersion
deriving DecidableEq

/-- Modelled from the spec: an incoming MessageDefinition (§3): action name,
request schema, and response schema; its request handler is observed through
the dispatch events below. -/
structure IncomingDef where
  action : String
  reqSchema : Json → Option Json
  resSchema : Json → Option Json

/-- Observable events of dispatching one inbound Call: frames written back,
and handler invocations (the handler side effects). -/
inductive DispatchEvent where
  | wrote (f : Frame) : DispatchEvent
  | handlerInvoked (action : String) (payload : Json) : DispatchEvent

/-- Modelled from the spec: the receive loop's handling of an inbound Call
frame (§4.4, §4.5, §7): resolve the handler via the Action Registry for the
connection's fixed ProtocolVersion; an unregistered action is answered with a
NotImplemented CallError and no handler runs; a payload failing validation is
answered with a FormationViolation CallError before dispatch; otherwise the
registered handler is invoked on the validated payload. -/
def handleIncomingCall (registry : OcppVersion → String → Option IncomingDef)
    (v : OcppVersion) (id action : String) (payload : Json) : List DispatchEvent :=
  match registry v action with
  | none =>
      [DispatchEvent.wrote (Frame.callError id notImplementedCode
        notImplementedDescription (Json.obj []))]
  | some d =>
      match d.reqSchema payload with
      | none =>
          [DispatchEvent.wrote (Frame.callError id formationViolationCode
            formationViolationDescription (Json.obj []))]
      | some p1 => [DispatchEvent.handlerInvoked action p1]

/-- One atomic engine step on a connection: a lifecycle event, a Correlation
Table operation, an inbound response frame, or an outbound send. -/
inductive ConnOp where
  | opConnect : ConnOp
  | opTransportOpened : ConnOp
  | opTransportFailed : ConnOp
  | opRegister (id : String) (pc : PendingCall) : ConnOp
  | opSettle (id : String) (o : Outcome) : ConnOp
  | opExpire (now : Nat) : ConnOp
  | opResult (id : String) (payload : Json) : ConnOp
  | opError (id code description : String) : ConnOp
  | opSend (d : OcppMessageDef) (p : Json) (now timeoutMs : Nat) : ConnOp
  | opClose : ConnOp

/-- Apply one engine step; a failing Correlation Table operation (DuplicateId,
UnknownId, send failure) is logged and leaves the state unchanged (§7). -/
def applyOp (st : ConnState) : ConnOp → ConnState
  | ConnOp.opConnect => connect st
  | ConnOp.opTransportOpened => transportOpened st
  | ConnOp.opTransportFailed => transportFailed st
  | ConnOp.opRegister id pc =>
      match register id pc st with
      | Except.ok st1 => st1
      | Except.error _ => st
  | ConnOp.opSettle id o =>
      match settle id o st with
      | Except.ok st1 => st1
      | Except.error _ => st
  | ConnOp.opExpire now => expire now st
  | ConnOp.opResult id payload => handleResultFrame id payload st
  | ConnOp.opError id code description => handleErrorFrame id code description st
  | ConnOp.opSend d p now timeoutMs =>
      match sendCall d p now timeoutMs st with
      | Except.ok r => r.1
      | Except.error _ => st
  | ConnOp.opClose => close st

/-- The state of a freshly constructed Connection Manager. -/
def initState : ConnState :=
  { status := ConnStatus.idle
    pending := []
    settledLog := []
    nextId := 0 }

/-- States reachable from a freshly constructed connection by engine steps. -/
inductive Reachable : ConnState → Prop where
  | init : Reachable initState
  | step {st : ConnState} (op : ConnOp) : Reachable st → Reachable (applyOp st op)

theorem lookupPending_none_iff (id : String) (l : List (String × PendingCall)) :
    lookupPending id l = none ↔ id ∉ l.map Prod.fst := by
  induction l with
  | nil => simp [lookupPending]
  | cons e rest ih =>
      by_cases h : e.1 = id
      · simp [lookupPending, h]
      · simp [lookupPending, h, ih, Ne.symm h]

theorem lookupPending_some_mem {id : String} {l : List (String × PendingCall)}
    {pc : PendingCall} (h : lookupPending id l = some pc) : (id, pc) ∈ l := by
  induction l with
  | nil => simp [lookupPending] at h
  | cons e rest ih =>
      obtain ⟨a, b⟩ := e
      by_cases he : a = id
      · subst he
        simp [lookupPending] at h
        subst h
        exact List.mem_cons_self _ _
      · simp [lookupPending, he] at h
        exact List.mem_cons_of_mem _ (ih h)

theorem lookupPending_removeId (id : String) (l : List (String × PendingCall)) :
    lookupPending id (removeId id l) = none := by
  induction l with
  | nil => rfl
  | cons e rest ih =>
      by_cases he : e.1 = id
      · simpa [removeId, List.filter_cons, he] using ih
      · simpa [removeId, List.filter_cons, he, lookupPending] using ih

theorem keys_filter_sublist (p : String × PendingCall → Bool)
    (l : List (String × PendingCall)) :
    List.Sublist ((l.filter p).map Prod.fst) (l.map Prod.fst) :=
  (List.filter_sublist l).map Prod.fst

theorem nodup_keys_filter {l : List (String × PendingCall)}
    (p : String × PendingCall → Bool) (h : (l.map Prod.fst).Nodup) :
    ((l.filter p).map Prod.fst).Nodup :=
  (keys_filter_sublist p l).nodup h

theorem register_ok {id : String} {pc : PendingCall} {st st1 : ConnState}
    (h : register id pc st = Except.ok st1) :
    lookupPending id st.pending = none ∧
    st1 = { st with pending := (id, pc) :: st.pending } := by
  unfold register at h
  cases hl : lookupPending id st.pending <;> rw [hl] at h
  · simp only [Except.ok.injEq] at h
    exact ⟨rfl, h.symm⟩
  · simp at h

theorem register_error_of_some {id : String} {pc pc0 : PendingCall}
    {st : ConnState} (h : lookupPending id st.pending = some pc0) :
    register id pc st = Except.error CorrError.duplicateId := by
  unfold register
  rw [h]

theorem settle_ok {id : String} {o : Outcome} {st st1 : ConnState}
    (h : settle id o st = Except.ok st1) :
    st1 = { st with pending := removeId id st.pending,
                    settledLog := st.settledLog ++ [(id, o)] } := by
  unfold settle at h
  cases hl : lookupPending id st.pending <;> rw [hl] at h
  · simp at h
  · simp only [Except.ok.injEq] at h
    exact h.symm

theorem settle_error_of_none {id : String} {o : Outcome} {st : ConnState}
    (h : lookupPending id st.pending = none) :
    settle id o st = Except.error CorrError.unknownId := by
  unfold settle
  rw [h]

theorem settle_ok_of_some {id : String} {o : Outcome} {st : ConnState}
    {pc : PendingCall} (h : lookupPending id st.pending = some pc) :
    settle id o st = Except.ok
      { st with pending := removeId id st.pending,
                settledLog := st.settledLog ++ [(id, o)] } := by
  unfold settle
  rw [h]

theorem handleResultFrame_of_none {id : String} {p : Json} {st : ConnState}
    (h : lookupPending id st.pending = none) :
    handleResultFrame id p st = st := by
  unfold handleResultFrame
  rw [h]

theorem handleResultFrame_of_valid {id : String} {p : Json} {st : ConnState}
    {pc : PendingCall} {r1 : Json}
    (h : lookupPending id st.pending = some pc)
    (hv : pc.msgDef.resSchema p = some r1) :
    handleResultFrame id p st =
      { st with pending := removeId id st.pending,
                settledLog := st.settledLog ++ [(id, Outcome.success r1)] } := by
  unfold handleResultFrame
  rw [h]
  simp only [hv]
  rw [settle_ok_of_some h]

theorem handleResultFrame_of_invalid {id : String} {p : Json} {st : ConnState}
    {pc : PendingCall}
    (h : lookupPending id st.pending = some pc)
    (hv : pc.msgDef.resSchema p = none) :
    handleResultFrame id p st =
      { st with pending := removeId id st.pending,
                settledLog := st.settledLog ++ [(id, Outcome.validationFailed)] } := by
  unfold handleResultFrame
  rw [h]
  simp only [hv]
  rw [settle_ok_of_some h]

theorem handleResultFrame_pending (id : String) (p : Json) (st : ConnState) :
    (handleResultFrame id p st).pending = st.pending ∨
    (handleResultFrame id p st).pending = removeId id st.pending := by
  cases hl : lookupPending id st.pending with
  | none => exact Or.inl (by rw [handleResultFrame_of_none hl])
  | some pc =>
      cases hv : pc.msgDef.resSchema p with
      | none => exact Or.inr (by rw [handleResultFrame_of_invalid hl hv])
      | some r1 => exact Or.inr (by rw [handleResultFrame_of_valid hl hv])

theorem handleErrorFrame_pending (id code description : String) (st : ConnState) :
    (handleErrorFrame id code description st).pending = st.pending ∨
    (handleErrorFrame id code description st).pending = removeId id st.pending := by
  unfold handleErrorFrame
  cases hs : settle id (Outcome.protocolError code description) st with
  | ok st1 => exact Or.inr (by rw [settle_ok hs])
  | error e => exact Or.inl rfl

theorem sendCall_eq_ok {d : OcppMessageDef} {p p1 : Json} {st : ConnState}
    (now timeoutMs : Nat)
    (hst : st.status = ConnStatus.opened)
    (hq : d.reqSchema p = some p1)
    (hfresh : lookupPending (freshId st) st.pending = none) :
    sendCall d p now timeoutMs st = Except.ok
      ({ st with
          pending :=
            (freshId st, { msgDef := d, deadline := now + timeoutMs }) :: st.pending
          nextId := st.nextId + 1 },
        freshId st, Frame.call (freshId st) d.action p1) := by
  unfold sendCall register
  rw [if_pos hst, hq, hfresh]

theorem sendCall_ok {d : OcppMessageDef} {p : Json} {now timeoutMs : Nat}
    {st : ConnState} {r : ConnState × String × Frame}
    (h : sendCall d p now timeoutMs st = Except.ok r) :
    lookupPending (freshId st) st.pending = none ∧
    r.1.pending =
      (freshId st, { msgDef := d, deadline := now + timeoutMs }) :: st.pending := by
  unfold sendCall at h
  by_cases hst : st.status = ConnStatus.opened
  · rw [if_pos hst] at h
    cases hq : d.reqSchema p <;> rw [hq] at h
    · simp at h
    · cases hr : register (freshId st) { msgDef := d, deadline := now + timeoutMs } st <;>
        rw [hr] at h
      · simp at h
      · obtain ⟨hnone, hst1⟩ := register_ok hr
        simp only [Except.ok.injEq] at h
        refine ⟨hnone, ?_⟩
        rw [← h]
        rw [hst1]
  · rw [if_neg hst] at h
    simp at h

theorem reachable_nodup {st : ConnState} (h : Reachable st) :
    (st.pending.map Prod.fst).Nodup := by
  induction h with
  | init => simp [initState]
  | @step st0 op hst ih =>
      cases op with
      | opConnect =>
          simp only [applyOp]
          unfold connect
          split <;> exact ih
      | opTransportOpened =>
          simp only [applyOp]
          unfold transportOpened
          split <;> exact ih
      | opTransportFailed =>
          simp only [applyOp]
          unfold transportFailed
          split <;> exact ih
      | opRegister id pc =>
          simp only [applyOp]
          cases hr : register id pc st0 with
          | ok st1 =>
              obtain ⟨hnone, hst1⟩ := register_ok hr
              rw [hst1]
              exact List.nodup_cons.mpr
                ⟨(lookupPending_none_iff id _).mp hnone, ih⟩
          | error e => exact ih
      | opSettle id o =>
          simp only [applyOp]
          cases hs : settle id o st0 with
          | ok st1 =>
              rw [settle_ok hs]
              exact nodup_keys_filter _ ih
          | error e => exact ih
      | opExpire now =>
          simp only [applyOp]
          exact nodup_keys_filter _ ih
      | opResult id payload =>
          simp only [applyOp]
          rcases handleResultFrame_pending id payload st0 with hp | hp <;> rw [hp]
          · exact ih
          · exact nodup_keys_filter _ ih
      | opError id code description =>
          simp only [applyOp]
          rcases handleErrorFrame_pending id code description st0 with hp | hp <;> rw [hp]
          · exact ih
          · exact nodup_keys_filter _ ih
      | opSend d p now timeoutMs =>
          simp only [applyOp]
          cases hs : sendCall d p now timeoutMs st0 with
          | ok r =>
              obtain ⟨hnone, hp⟩ := sendCall_ok hs
              rw [hp]
              exact List.nodup_cons.mpr
                ⟨(lookupPending_none_iff _ _).mp hnone, ih⟩
          | error e => exact ih
      | opClose =>
          simp only [applyOp]
          unfold close
          split
          · exact ih
          · simp

theorem lookupPending_filter_none {l : List (String × PendingCall)}
    {id : String} {pc : PendingCall} (p : String × PendingCall → Bool)
    (hnd : (l.map Prod.fst).Nodup) (hl : lookupPending id l = some pc)
    (hp : p (id, pc) = false) :
    lookupPending id (l.filter p) = none := by
  induction l with
  | nil => simp [lookupPending] at hl
  | cons e rest ih =>
      obtain ⟨hmem, hnd1⟩ := List.nodup_cons.mp hnd
      obtain ⟨a, b⟩ := e
      by_cases he : a = id
      · subst he
        simp [lookupPending] at hl
        subst hl
        simp only [List.filter_cons, hp, Bool.false_eq_true, if_false]
        exact (lookupPending_none_iff _ _).mpr
          (fun hc => hmem ((keys_filter_sublist p rest).subset hc))
      · simp only [lookupPending, he, if_false] at hl
        simp only [List.filter_cons]
        by_cases hpe : p (a, b) = true
        · simp only [hpe, if_true, lookupPending, he, if_false]
          exact ih hnd1 hl
        · rw [Bool.not_eq_true] at hpe
          simp only [hpe, Bool.false_eq_true, if_false]
          exact ih hnd1 hl

/-- Sample schema validator accepting every payload unchanged. -/
def idSchema : Json → Option Json := fun j => some j

/-- Sample outgoing message definition for concrete instantiations. -/
def dW : OcppMessageDef :=
  { action := sampleAction
    reqSchema := idSchema
    resSchema := idSchema }

/-- Sample PendingCall with a 30 s deadline. -/
def pcW : PendingCall := { msgDef := dW, deadline := 30000 }

/-- Sample Open connection with one live PendingCall. -/
def stOpen1 : ConnState :=
  { status := ConnStatus.opened
    pending := [(sampleId, pcW)]
    settledLog := []
    nextId := 5 }

/-- Sample Open connection with an empty Correlation Table. -/
def stOpenEmpty : ConnState :=
  { status := ConnStatus.opened
    pending := []
    settledLog := []
    nextId := 0 }

/-- Sample already-Closed connection whose calls have all settled. -/
def stClosed1 : ConnState :=
  { status := ConnStatus.closed
    pending := []
    settledLog := [(sampleId, Outcome.timeout)]
    nextId := 7 }

/-- Sample reachable state: one register step from the initial state. -/
def stReg : ConnState := applyOp initState (ConnOp.opRegister sampleId pcW)

/-- Claim C1: for every outgoing definition and payload P passing the request
schema, if a CallResult with the matching id and a payload R passing the
response schema arrives while the call is pending (before the deadline
settles it), the call settles with the validated (normalized) form of R and
the Correlation Table holds no entry for that id afterwards; `send` itself
registers the pending entry and emits the Call frame. -/
theorem send_resolves_with_validated_response :
    (∀ (st : ConnState) (id : String) (pc : PendingCall) (r r1 : Json),
      lookupPending id st.pending = some pc →
      pc.msgDef.resSchema r = some r1 →
      handleResultFrame id r st =
        { st with pending := removeId id st.pending,
                  settledLog := st.settledLog ++ [(id, Outcome.success r1)] } ∧
      lookupPending id (handleResultFrame id r st).pending = none) ∧
    (∀ (st : ConnState) (d : OcppMessageDef) (p p1 r r1 : Json)
        (now timeoutMs : Nat),
      st.status = ConnStatus.opened →
      lookupPending (freshId st) st.pending = none →
      d.reqSchema p = some p1 →
      d.resSchema r = some r1 →
      ∃ st1 : ConnState,
        sendCall d p now timeoutMs st =
          Except.ok (st1, freshId st, Frame.call (freshId st) d.action p1) ∧
        (freshId st, Outcome.success r1) ∈
          (handleResultFrame (freshId st) r st1).settledLog ∧
        lookupPending (freshId st) (handleResultFrame (freshId st) r st1).pending =
          none) := by
  constructor
  · intro st id pc r r1 hl hv
    refine ⟨handleResultFrame_of_valid hl hv, ?_⟩
    rw [handleResultFrame_of_valid hl hv]
    exact lookupPending_removeId id st.pending
  · intro st d p p1 r r1 now timeoutMs hst hfresh hq hr
    refine ⟨_, sendCall_eq_ok now timeoutMs hst hq hfresh, ?_, ?_⟩ <;>
      [skip; skip]
    all_goals
      have hlook : lookupPending (freshId st)
          (ConnState.pending { st with
            pending :=
              (freshId st, { msgDef := d, deadline := now + timeoutMs }) :: st.pending
            nextId := st.nextId + 1 }) =
          some { msgDef := d, deadline := now + timeoutMs } := by
        simp [lookupPending]
    all_goals
      rw [handleResultFrame_of_valid hlook hr]
    · exact List.mem_append_right _ (List.mem_singleton.mpr rfl)
    · exact lookupPending_removeId _ _

/-- Claim C1 (witness): a concrete send on an Open connection with identity
schemas resolves with the response payload and clears the table entry. -/
theorem send_resolves_witness :
    ∃ st1 : ConnState,
      sendCall dW Json.null 0 30000 stOpenEmpty =
        Except.ok (st1, freshId stOpenEmpty,
          Frame.call (freshId stOpenEmpty) dW.action Json.null) ∧
      (freshId stOpenEmpty, Outcome.success (Json.num 1)) ∈
        (handleResultFrame (freshId stOpenEmpty) (Json.num 1) st1).settledLog ∧
      lookupPending (freshId stOpenEmpty)
        (handleResultFrame (freshId stOpenEmpty) (Json.num 1) st1).pending = none :=
  send_resolves_with_validated_response.2 stOpenEmpty dW Json.null Json.null
    (Json.num 1) (Json.num 1) 0 30000 rfl rfl rfl rfl

/-- Claim C2: an inbound Call whose action has no registered definition for
the connection's fixed ProtocolVersion is answered with a CallError carrying
the NotImplemented error code, and no handler is invoked for it. -/
theorem unknown_action_not_implemented
    (registry : OcppVersion → String → Option IncomingDef)
    (v : OcppVersion) (id action : String) (payload : Json)
    (h : registry v action = none) :
    handleIncomingCall registry v id action payload =
      [DispatchEvent.wrote (Frame.callError id notImplementedCode
        notImplementedDescription (Json.obj []))] ∧
    ∀ (a : String) (p : Json),
      DispatchEvent.handlerInvoked a p ∉
        handleIncomingCall registry v id action payload := by
  have he : handleIncomingCall registry v id action payload =
      [DispatchEvent.wrote (Frame.callError id notImplementedCode
        notImplementedDescription (Json.obj []))] := by
    unfold handleIncomingCall
    rw [h]
  refine ⟨he, ?_⟩
  intro a p hmem
  rw [he] at hmem
  simp at hmem

/-- Claim C2 (witness): the empty registry rejects a concrete inbound Call
with a NotImplemented CallError. -/
theorem unknown_action_not_implemented_witness :
    handleIncomingCall (fun _ _ => none) OcppVersion.ocpp21 sampleId sampleAction
        Json.null =
      [DispatchEvent.wrote (Frame.callError sampleId notImplementedCode
        notImplementedDescription (Json.obj []))] :=
  (unknown_action_not_implemented (fun _ _ => none) OcppVersion.ocpp21 sampleId
    sampleAction Json.null rfl).1

/-- Claim C3: a pending call whose deadline has passed is settled with a
Timeout outcome by any later `expire` tick and its entry is removed; settling
an id with no live entry is an UnknownId no-op (a late response after the
timeout changes nothing, and `expire` never re-settles an id that has no live
entry); after a successful settle the entry is gone, so the second of two
racing settle attempts is a no-op. -/
theorem timeout_settles_exactly_once :
    (∀ (st : ConnState) (id : String) (pc : PendingCall) (now : Nat),
      (st.pending.map Prod.fst).Nodup →
      lookupPending id st.pending = some pc →
      pc.deadline < now →
      lookupPending id (expire now st).pending = none ∧
      (id, Outcome.timeout) ∈ (expire now st).settledLog) ∧
    (∀ (st : ConnState) (id : String) (o : Outcome) (payload : Json),
      lookupPending id st.pending = none →
      settle id o st = Except.error CorrError.unknownId ∧
      handleResultFrame id payload st = st) ∧
    (∀ (st : ConnState) (id : String) (now : Nat),
      lookupPending id st.pending = none →
      (id, Outcome.timeout) ∈ (expire now st).settledLog →
      (id, Outcome.timeout) ∈ st.settledLog) ∧
    (∀ (st st1 : ConnState) (id : String) (o : Outcome),
      settle id o st = Except.ok st1 →
      lookupPending id st1.pending = none) := by
  refine ⟨?_, ?_, ?_, ?_⟩
  · intro st id pc now hnd hl hdl
    constructor
    · exact lookupPending_filter_none _ hnd hl (by simp [hdl])
    · have hmem : (id, pc) ∈ st.pending.filter (fun e => decide (e.2.deadline < now)) :=
        List.mem_filter.mpr ⟨lookupPending_some_mem hl, by simp [hdl]⟩
      exact List.mem_append_right _ (List.mem_map.mpr ⟨(id, pc), hmem, rfl⟩)
  · intro st id o payload hl
    exact ⟨settle_error_of_none hl, handleResultFrame_of_none hl⟩
  · intro st id now hl hmem
    rcases List.mem_append.mp hmem with h1 | h1
    · exact h1
    · exfalso
      rcases List.mem_map.mp h1 with ⟨e, hef, heq⟩
      have he1 : e.1 = id := congrArg Prod.fst heq
      exact (lookupPending_none_iff id st.pending).mp hl
        (List.mem_map.mpr ⟨e, (List.mem_filter.mp hef).1, he1⟩)
  · intro st st1 id o hs
    rw [settle_ok hs]
    exact lookupPending_removeId id st.pending

/-- Claim C3 (witness): a concrete overdue call is settled with Timeout by an
expire tick past its deadline, and settling an absent id is an UnknownId
no-op. -/
theorem timeout_settles_witness :
    lookupPending sampleId (expire 30001 stOpen1).pending = none ∧
    (sampleId, Outcome.timeout) ∈ (expire 30001 stOpen1).settledLog ∧
    settle sampleId Outcome.timeout stOpenEmpty =
      Except.error CorrError.unknownId := by
  have h1 := timeout_settles_exactly_once.1 stOpen1 sampleId pcW 30001
    (by simp [stOpen1]) rfl (by decide)
  have h2 := timeout_settles_exactly_once.2.1 stOpenEmpty sampleId
    Outcome.timeout Json.null rfl
  exact ⟨h1.1, h1.2, h2.1⟩

/-- Claim C4: in every reachable connection state the Correlation Table holds
at most one live PendingCall per id, and registering an id that already has a
live entry fails with DuplicateId, leaving the state (the existing entry and
the rest of the table) unchanged. -/
theorem pending_id_unique_and_duplicate_rejected
    (st : ConnState) (h : Reachable st) :
    (st.pending.map Prod.fst).Nodup ∧
    ∀ (id : String) (pc pcNew : PendingCall),
      lookupPending id st.pending = some pc →
      register id pcNew st = Except.error CorrError.duplicateId ∧
      applyOp st (ConnOp.opRegister id pcNew) = st := by
  refine ⟨reachable_nodup h, ?_⟩
  intro id pc pcNew hl
  refine ⟨register_error_of_some hl, ?_⟩
  simp only [applyOp, register_error_of_some hl]

/-- Claim C4 (witness): after one concrete register step from the initial
state, the table keys are distinct and a second register of the same id is
rejected with DuplicateId. -/
theorem pending_id_unique_witness :
    (stReg.pending.map Prod.fst).Nodup ∧
    register sampleId pcW stReg = Except.error CorrError.duplicateId := by
  have h := pending_id_unique_and_duplicate_rejected stReg
    (Reachable.step (ConnOp.opRegister sampleId pcW) Reachable.init)
  exact ⟨h.1, (h.2 sampleId pcW pcW rfl).1⟩

/-- Claim C5: the Open-to-Closed transition (explicit close or transport
disconnect) settles every live PendingCall with a Disconnected outcome and
empties the pending set, so no suspended send caller waits forever. -/
theorem close_settles_all_disconnected (st : ConnState)
    (h : st.status = ConnStatus.opened) :
    (close st).status = ConnStatus.closed ∧
    (close st).pending = [] ∧
    ∀ (id : String) (pc : PendingCall), (id, pc) ∈ st.pending →
      (id, Outcome.disconnected) ∈ (close st).settledLog := by
  have hne : ¬ st.status = ConnStatus.closed := by
    rw [h]
    decide
  unfold close
  rw [if_neg hne]
  refine ⟨rfl, rfl, ?_⟩
  intro id pc hmem
  exact List.mem_append_right _ (List.mem_map.mpr ⟨(id, pc), hmem, rfl⟩)

/-- Claim C5 (witness): closing a concrete Open connection with one live call
yields Closed status, an empty pending set, and a Disconnected settlement. -/
theorem close_settles_witness :
    (close stOpen1).status = ConnStatus.closed ∧
    (close stOpen1).pending = [] ∧
    (sampleId, Outcome.disconnected) ∈ (close stOpen1).settledLog := by
  have h := close_settles_all_disconnected stOpen1 rfl
  exact ⟨h.1, h.2.1, h.2.2 sampleId pcW (List.mem_cons_self _ _)⟩

/-- Claim C7: close is idempotent: on an already-Closed connection, calling
close again leaves the state unchanged, re-settles no PendingCall (the
settled log is untouched), and performs no observable action. -/
theorem close_idempotent_on_closed (st : ConnState)
    (h : st.status = ConnStatus.closed) : close st = st := by
  unfold close
  rw [if_pos h]

/-- Claim C7 (witness): closing a concrete already-Closed connection changes
nothing. -/
theorem close_idempotent_witness : close stClosed1 = stClosed1 :=
  close_idempotent_on_closed stClosed1 rfl

end Engine

/-- Response status string shared by the v21 message handlers. -/
def statusAccepted : String := "Accepted"

namespace SignCertificate

/-- From src/v21/messages/signCertificate.ts: the SignCertificate request
payload; `nullish` schema fields are Options. -/
structure SignCertificateReq where
  csr : String
  certificateType : Option String
  requestId : Option Int
  hashRootCertificate : Option Json

/-- The connection object's dynamic state as touched by this handler: the
pendingCertificateRequestId field attached at runtime, with every other field
of the VCP abstracted into `rest`. -/
structure VCPConn (R : Type) where
  pendingCertificateRequestId : Option Int
  rest : R

/-- JavaScript truthiness of the optional numeric requestId: null, undefined
and 0 are falsy. -/
def truthyInt : Option Int → Bool
  | none => false
  | some n => decide (n ≠ 0)

/-- From SignCertificateOcppOutgoing.resHandler: stores the request id on the
connection when `call.payload.requestId` is truthy. -/
def resHandler {R : Type} (vcp : VCPConn R) (callPayload : SignCertificateReq) :
    VCPConn R :=
  if truthyInt callPayload.requestId then
    { vcp with pendingCertificateRequestId := callPayload.requestId }
  else vcp

/-- Sample connection state. -/
def vcpW : VCPConn Nat := { pendingCertificateRequestId := none, rest := 0 }

/-- Sample CSR string. -/
def csrW : String := "csr"

/-- Sample request whose requestId is present but zero. -/
def reqZero : SignCertificateReq :=
  { csr := csrW
    certificateType := none
    requestId := some 0
    hashRootCertificate := none }

/-- Sample request whose requestId is 5. -/
def reqFive : SignCertificateReq :=
  { csr := csrW
    certificateType := none
    requestId := some 5
    hashRootCertificate := none }

/-- Claim C8 (counterexample): a request payload containing requestId = 0 does
contain a requestId, yet the handler leaves the connection unchanged (the JS
truthiness test rejects 0), so "if the original request payload contains a
requestId, the handler sets pendingCertificateRequestId to that requestId"
fails at requestId = 0. -/
theorem resHandler_zero_requestId_counterexample :
    reqZero.requestId = some 0 ∧
    resHandler vcpW reqZero = vcpW ∧
    (resHandler vcpW reqZero).pendingCertificateRequestId ≠ some 0 :=
  ⟨rfl, rfl, by decide⟩

/-- Claim C8 (amended): the SignCertificate response handler sets the
connection's pendingCertificateRequestId to the request's requestId whenever
that requestId is present and nonzero (truthy); when the requestId is absent,
null, or zero the connection object is left unchanged; and in either case no
other field of the connection is modified. -/
theorem resHandler_sets_pending_request_id {R : Type}
    (vcp : VCPConn R) (req : SignCertificateReq) :
    (∀ rid : Int, req.requestId = some rid → rid ≠ 0 →
      resHandler vcp req =
        { vcp with pendingCertificateRequestId := some rid }) ∧
    ((req.requestId = none ∨ req.requestId = some 0) →
      resHandler vcp req = vcp) ∧
    (resHandler vcp req).rest = vcp.rest := by
  refine ⟨?_, ?_, ?_⟩
  · intro rid hr hn
    unfold resHandler
    rw [hr]
    simp [truthyInt, hn]
  · intro hr
    unfold resHandler
    rcases hr with hr | hr <;> rw [hr] <;> simp [truthyInt]
  · unfold resHandler
    split <;> rfl

/-- Claim C8 (witness): a concrete nonzero requestId is stored on the
connection, and a zero requestId leaves it unchanged. -/
theorem resHandler_sets_witness :
    resHandler vcpW reqFive = { vcpW with pendingCertificateRequestId := some 5 } ∧
    resHandler vcpW reqZero = vcpW := by
  have h5 := resHandler_sets_pending_request_id vcpW reqFive
  have h0 := resHandler_sets_pending_request_id vcpW reqZero
  exact ⟨h5.1 5 rfl (by decide), h0.2.1 (Or.inr rfl)⟩

end SignCertificate

namespace UsePriorityCharging

/-- From src/v21/messages/usePriorityCharging.ts: the UsePriorityCharging
request payload. -/
structure UsePriorityChargingReq where
  transactionId : String
  activate : Bool

/-- Observable effects of the handler: the CallResult written back and the
outgoing NotifyPriorityCharging request payload. -/
inductive Effect where
  | responded (status : String) : Effect
  | sentNotifyPriorityCharging (transactionId : String) (activated : Bool) : Effect

/-- From UsePriorityChargingOcppIncoming.reqHandler: responds Accepted, then
(after a fixed sleep, not modelled) sends one NotifyPriorityCharging request
with the call's transactionId and `activated` hard-coded to true. -/
def reqHandler (req : UsePriorityChargingReq) : List Effect :=
  [Effect.responded statusAccepted,
   Effect.sentNotifyPriorityCharging req.transactionId true]

/-- Claim C10: for every inbound UsePriorityCharging Call the handler first
responds with status Accepted and then sends exactly one
NotifyPriorityCharging request whose transactionId equals the inbound call's
transactionId and whose activated field is true for every value of the
request's activate flag, including activate = false. -/
theorem reqHandler_always_activates (tid : String) (activate : Bool) :
    reqHandler { transactionId := tid, activate := activate } =
      [Effect.responded statusAccepted,
       Effect.sentNotifyPriorityCharging tid true] := rfl

/-- Claim C10 (witness): a concrete deactivation request still sends
activated = true. -/
theorem reqHandler_always_activates_witness :
    reqHandler { transactionId := sampleId, activate := false } =
      [Effect.responded statusAccepted,
       Effect.sentNotifyPriorityCharging sampleId true] :=
  reqHandler_always_activates sampleId false

end UsePriorityCharging

namespace GetInstalledCertificateIds

/-- From src/v21/messages/getInstalledCertificateIds.ts: the certificate type
enumeration of the request schema. -/
inductive CertType where
  | v2gRootCertificate : CertType
  | moRootCertificate : CertType
  | csmsRootCertificate : CertType
  | v2gCertificateChain : CertType
  | manufacturerRootCertificate : CertType
  | oemRootCertificate : CertType
deriving DecidableEq

/-- From src/utils/certUtils.ts: the certificate hash data record produced by
generateMockCertificateHashData. -/
structure CertificateHashData where
  hashAlgorithm : String
  issuerNameHash : String
  issuerKeyHash : String
  serialNumber : String
deriving DecidableEq

/-- From src/utils/certUtils.ts: one entry of the certificateHashDataChain
response field. -/
structure CertificateHashDataChainEntry where
  certificateType : CertType
  certificateHashData : CertificateHashData
  childCertificateHashData : Option (List CertificateHashData)
deriving DecidableEq

/-- From certUtils.ts generateSampleCertificateHashDataChain: the list of all
six certificate types used when none are requested. -/
def allCertificateTypes : List CertType :=
  [CertType.v2gRootCertificate, CertType.moRootCertificate,
   CertType.csmsRootCertificate, CertType.v2gCertificateChain,
   CertType.manufacturerRootCertificate, CertType.oemRootCertificate]

/-- From certUtils.ts generateSampleCertificateHashDataChain: the per-type map
body. generateMockCertificateHashData draws on Date.now and Math.random, so it
is abstracted as `gen`, indexed by the sequence number of the call; each type
consumes one call for its main hash data, and a V2GCertificateChain type two
further calls for its two child certificates. -/
def chainFrom (gen : Nat → CertType → CertificateHashData) :
    Nat → List CertType → List CertificateHashDataChainEntry
  | _, [] => []
  | k, t :: ts =>
      if t = CertType.v2gCertificateChain then
        { certificateType := t
          certificateHashData := gen k t
          childCertificateHashData := some [gen (k + 1) t, gen (k + 2) t] } ::
          chainFrom gen (k + 3) ts
      else
        { certificateType := t
          certificateHashData := gen k t
          childCertificateHashData := none } :: chainFrom gen (k + 1) ts

/-- From certUtils.ts generateSampleCertificateHashDataChain: maps the
requested types (or all six when none are given) to chain entries. -/
def generateSampleCertificateHashDataChain
    (gen : Nat → CertType → CertificateHashData)
    (requestedTypes : Option (List CertType)) :
    List CertificateHashDataChainEntry :=
  chainFrom gen 0 (requestedTypes.getD allCertificateTypes)

/-- Observable effect of the handler: the CallResult written back. -/
inductive Effect where
  | responded (status : String)
      (certificateHashDataChain : List CertificateHashDataChainEntry) : Effect

/-- From GetInstalledCertificateIdsOcppIncoming.reqHandler: an absent, null,
or empty certificateType list is answered Accepted with an empty chain;
otherwise the sample chain for exactly the requested types is returned. -/
def reqHandler (gen : Nat → CertType → CertificateHashData)
    (certificateType : Option (List CertType)) : List Effect :=
  match certificateType with
  | none => [Effect.responded statusAccepted []]
  | some ts =>
      if ts.isEmpty then [Effect.responded statusAccepted []]
      else
        [Effect.responded statusAccepted
          (generateSampleCertificateHashDataChain gen (some ts))]

/-- A chain entry answers one requested type: its certificateType equals the
requested type, and it carries a two-element childCertificateHashData list
exactly when the type is V2GCertificateChain. -/
def entryMatches (e : CertificateHashDataChainEntry) (t : CertType) : Prop :=
  e.certificateType = t ∧
  ((t = CertType.v2gCertificateChain ∧
      ∃ c1 c2 : CertificateHashData,
        e.childCertificateHashData = some [c1, c2]) ∨
   (t ≠ CertType.v2gCertificateChain ∧ e.childCertificateHashData = none))

theorem chainFrom_forall2 (gen : Nat → CertType → CertificateHashData)
    (k : Nat) (ts : List CertType) :
    List.Forall₂ entryMatches (chainFrom gen k ts) ts := by
  induction ts generalizing k with
  | nil => exact List.Forall₂.nil
  | cons t ts ih =>
      by_cases ht : t = CertType.v2gCertificateChain
      · simp only [chainFrom, ht, if_true]
        exact List.Forall₂.cons ⟨rfl, Or.inl ⟨rfl, _, _, rfl⟩⟩ (ih (k + 3))
      · simp only [chainFrom, ht, if_false]
        exact List.Forall₂.cons ⟨rfl, Or.inr ⟨ht, rfl⟩⟩ (ih (k + 1))

/-- Claim C9: an inbound GetInstalledCertificateIds Call with an absent, null,
or empty certificateType list is answered exactly once with status Accepted
and an empty certificateHashDataChain; otherwise it is answered exactly once
with status Accepted and a chain containing exactly one entry per requested
type, in request order, where each entry's certificateType equals the
requested type and an entry carries a two-element childCertificateHashData
list if and only if its type is V2GCertificateChain. -/
theorem getInstalledCertificateIds_response
    (gen : Nat → CertType → CertificateHashData) :
    (∀ req : Option (List CertType), req = none ∨ req = some [] →
      reqHandler gen req = [Effect.responded statusAccepted []]) ∧
    (∀ ts : List CertType, ts ≠ [] →
      reqHandler gen (some ts) =
        [Effect.responded statusAccepted
          (generateSampleCertificateHashDataChain gen (some ts))] ∧
      (generateSampleCertificateHashDataChain gen (some ts)).length = ts.length ∧
      List.Forall₂ entryMatches
        (generateSampleCertificateHashDataChain gen (some ts)) ts) := by
  constructor
  · rintro req (rfl | rfl) <;> rfl
  · intro ts hne
    have hemp : ts.isEmpty = false := by
      cases ts
      · exact absurd rfl hne
      · rfl
    refine ⟨?_, ?_, ?_⟩
    · simp [reqHandler, hemp]
    · exact (chainFrom_forall2 gen 0 ts).length_eq
    · exact chainFrom_forall2 gen 0 ts

/-- Sample hash algorithm name. -/
def sha256W : String := "SHA256"

/-- Sample deterministic stand-in for generateMockCertificateHashData. -/
def genW : Nat → CertType → CertificateHashData :=
  fun k _ =>
    { hashAlgorithm := sha256W
      issuerNameHash := sampleId
      issuerKeyHash := sampleId
      serialNumber := toString k }

/-- Claim C9 (witness): the handler applied to a concrete two-type request and
to an absent request. -/
theorem getInstalledCertificateIds_witness :
    reqHandler genW none = [Effect.responded statusAccepted []] ∧
    reqHandler genW (some [CertType.v2gCertificateChain, CertType.moRootCertificate]) =
      [Effect.responded statusAccepted
        (generateSampleCertificateHashDataChain genW
          (some [CertType.v2gCertificateChain, CertType.moRootCertificate]))] ∧
    List.Forall₂ entryMatches
      (generateSampleCertificateHashDataChain genW
        (some [CertType.v2gCertificateChain, CertType.moRootCertificate]))
      [CertType.v2gCertificateChain, CertType.moRootCertificate] := by
  have h0 := (getInstalledCertificateIds_response genW).1 none (Or.inl rfl)
  have h := (getInstalledCertificateIds_response genW).2
    [CertType.v2gCertificateChain, CertType.moRootCertificate] (by simp)
  exact ⟨h0, h.1, h.2.2⟩

end GetInstalledCertificateIds

end OcppVCP
